import Mathlib

/-!
Verification of the reflector-network oracle-client transaction pipeline.

The development shallowly embeds the parts of the client that the checked
properties concern: the resource-fee normalizer and transaction
builder/simulator of src/rpc-helper.js (both the legacy variant and the
restore-capable variant present in the file), the submission/polling state
machine of src/client-base.js, src/index.js and the test-suite helper in
test/index.test.js, the sparse price-update mask of src/oracle/index.js, the
deposit-parameter map encoder of src/dao/index.js, the result decoders of
src/xdr-values-helper.js, and the threshold signer of test/index.test.js.

JavaScript numbers that hold fees, instruction counts and byte counts are
embedded as Nat (all are non-negative integers in the source); prices are
BigInt in the source and embedded as Int.  Mutation of caller-owned objects
is embedded as explicit state passing: a function that can mutate an object
returns the caller-visible final state of that object alongside its result.
Thrown exceptions are embedded as Except.
-/

namespace OracleClient

/-! ## Resource-fee normalizer (src/rpc-helper.js lines 13-23, 120-130) -/

/-- Fuel-driven floor of the base-10 logarithm: `log10floorAux fuel n` equals
`Nat.log 10 n` whenever `n ≤ fuel` (proved below).  Mirrors the source's
`Math.floor(Math.log10(n))` on non-negative integers while staying
kernel-reducible. -/
def log10floorAux : Nat → Nat → Nat
  | 0, _ => 0
  | fuel + 1, n => if n < 10 then 0 else log10floorAux fuel (n / 10) + 1

/-- `getFactorOfValue(n)`: `Math.pow(10, Math.floor(Math.log10(n)))`. -/
def getFactorOfValue (n : Nat) : Nat := 10 ^ log10floorAux n n

/-- `roundValue(value)`: `if (value === 0) return value;
const factor = getFactorOfValue(value);
return Math.floor(((value * 2) / factor)) * factor`. -/
def roundValue (value : Nat) : Nat :=
  if value = 0 then value
  else value * 2 / getFactorOfValue value * getFactorOfValue value

/-- src/rpc-helper.js lines 57-59 (and 189-191):
`let resourceFee = BigInt(roundValue(rawFee));
if (resourceFee < 10000000n) resourceFee = 10000000n`. -/
def computeResourceFee (rawFee : Nat) : Nat :=
  let resourceFee := roundValue rawFee
  if resourceFee < 10000000 then 10000000 else resourceFee

/-! ## Transaction builder/simulator (src/rpc-helper.js) -/

/-- A ledger account snapshot: identity and sequence number.  The source holds
these inside a stellar-sdk `Account` object. -/
structure Account where
  accountId : String
  sequence : Int
deriving DecidableEq

/-- A contract invocation, treated as opaque data by the builder. -/
abbrev Operation := String

/-- Caller-supplied transaction options (src/rpc-helper.js `TxOptions`). -/
structure TxOptions where
  fee : Nat
  memo : Option String
  timebounds : Option (Int × Int)
deriving DecidableEq

/-- The cloned builder options after the builder injects memo, network
passphrase and timebounds (src/rpc-helper.js lines 164-167). -/
structure BuilderOptions where
  fee : Nat
  memo : Option String
  networkPassphrase : Option String
  timebounds : Option (Int × Int)
deriving DecidableEq

/-- The unsigned transaction produced by the SDK builder. -/
structure BuiltTx where
  sourceAccountId : String
  seqNum : Int
  options : BuilderOptions
  operation : Operation
deriving DecidableEq

/-- External collaborator: the stellar-sdk `TransactionBuilder`.  Its `build()`
step gives the transaction sequence number `source.sequence + 1` and, per the
documented SDK contract, increments the sequence number of the account object
it was handed.  Embedded as explicit state passing: the pair holds the built
transaction and the post-build state of that account object. -/
def txBuilderBuild (source : Account) (options : BuilderOptions) (operation : Operation) :
    BuiltTx × Account :=
  (⟨source.accountId, source.sequence + 1, options, operation⟩,
   { source with sequence := source.sequence + 1 })

/-- The restore preamble of a simulation response flagged as needing
restoration (`rpc.Api.isSimulationRestore`). -/
structure RestorePreamble where
  minResourceFee : Nat
  transactionData : String
deriving DecidableEq

/-- A simulation response, at the interface the builder consumes: an optional
application error, an optional restore preamble, the raw minimum resource fee
(`none` embeds a value on which `Number(...)` yields NaN), and the raw
resource figures. -/
structure SimResponse where
  error : Option String
  restorePreamble : Option RestorePreamble
  minResourceFee : Option Nat
  instructions : Nat
  readBytes : Nat
  writeBytes : Nat
deriving DecidableEq

/-- The assembled transaction: the unsigned transaction merged with the
normalized resource figures written back into the simulation data
(src/rpc-helper.js lines 193-209). -/
structure AssembledTx where
  tx : BuiltTx
  resourceFee : Nat
  instructions : Nat
  readBytes : Nat
  writeBytes : Nat
deriving DecidableEq

/-- The restore-footprint transaction built by `getRestoreTransaction`. -/
structure RestoreTx where
  sourceAccountId : String
  seqNum : Int
  options : BuilderOptions
  sorobanData : String
deriving DecidableEq

/-- `buildTransaction` either assembles the intended invocation or substitutes
a restore transaction. -/
inductive BuildResult where
  | assembled (tx : AssembledTx)
  | restore (tx : RestoreTx)

/-- One run of `buildTransaction`: the outcome (`Except.error` embeds a thrown
exception) together with the caller-visible final states of the two
caller-owned objects the source could mutate, the source `Account` and the
`txOptions` object. -/
structure BuildRun where
  result : Except String BuildResult
  sourceAfter : Account
  optionsAfter : Option TxOptions

/-- src/rpc-helper.js lines 138-150 (`getRestoreTransaction`): the restore fee
is `parseInt(BASE_FEE) = 100` plus the preamble's `minResourceFee`, normalized
with `roundValue` and written into the (cloned) builder options; the
restore-footprint transaction is built from the passed account copy with the
preamble's transaction data attached. -/
def getRestoreTransaction (preamble : RestorePreamble) (source : Account)
    (txOptions : BuilderOptions) : RestoreTx :=
  let fee := roundValue (100 + preamble.minResourceFee)
  let opts := { txOptions with fee := fee }
  ⟨source.accountId, source.sequence + 1, opts, preamble.transactionData⟩

/-- src/rpc-helper.js lines 159-212: the restore-capable `buildTransaction`.
The caller's options are cloned (`structuredClone`) before memo, network
passphrase and timebounds are injected, and the SDK builder receives a fresh
`new Account(source.accountId(), source.sequence.toString())` copy, never the
live `source` object ("keep original source account for the restore
transaction"); a second fresh copy feeds the restore branch.  The simulation
response is a parameter (the network call is external). -/
def buildTransaction (network : String) (source : Account) (operation : Operation)
    (options : Option TxOptions) (sim : SimResponse) : BuildRun :=
  match options with
  | none => ⟨Except.error "options are required", source, none⟩
  | some opts =>
    let txBuilderOptions : BuilderOptions :=
      { fee := opts.fee
        memo := opts.memo
        networkPassphrase := some network
        timebounds := opts.timebounds }
    let built := txBuilderBuild ⟨source.accountId, source.sequence⟩ txBuilderOptions operation
    match sim.error with
    | some e => ⟨Except.error e, source, some opts⟩
    | none =>
      match sim.restorePreamble with
      | some preamble =>
        ⟨Except.ok (BuildResult.restore
            (getRestoreTransaction preamble ⟨source.accountId, source.sequence⟩ txBuilderOptions)),
          source, some opts⟩
      | none =>
        match sim.minResourceFee with
        | none =>
          ⟨Except.error "Failed to get resource fee from the simulation response.",
            source, some opts⟩
        | some rawFee =>
          ⟨Except.ok (BuildResult.assembled
              { tx := built.1
                resourceFee := computeResourceFee rawFee
                instructions := roundValue sim.instructions
                readBytes := roundValue sim.readBytes
                writeBytes := roundValue sim.writeBytes }),
            source, some opts⟩

/-- src/rpc-helper.js lines 32-80 (the legacy `buildTransaction`, likewise
embedded in src/client-base.js lines 166-210 and src/index.js lines 63-80):
identical to the restore-capable variant except that it has no restore branch
and the SDK builder receives the live `source` object itself
(`new TransactionBuilder(source, txBuilderOptions)`), so the build step
increments the sequence number of the caller's account snapshot. -/
def buildTransactionLegacy (network : String) (source : Account) (operation : Operation)
    (options : Option TxOptions) (sim : SimResponse) : BuildRun :=
  match options with
  | none => ⟨Except.error "options are required", source, none⟩
  | some opts =>
    let txBuilderOptions : BuilderOptions :=
      { fee := opts.fee
        memo := opts.memo
        networkPassphrase := some network
        timebounds := opts.timebounds }
    let built := txBuilderBuild source txBuilderOptions operation
    match sim.error with
    | some e => ⟨Except.error e, built.2, some opts⟩
    | none =>
      match sim.minResourceFee with
      | none =>
        ⟨Except.error "Failed to get resource fee from the simulation response.",
          built.2, some opts⟩
      | some rawFee =>
        ⟨Except.ok (BuildResult.assembled
            { tx := built.1
              resourceFee := computeResourceFee rawFee
              instructions := roundValue sim.instructions
              readBytes := roundValue sim.readBytes
              writeBytes := roundValue sim.writeBytes }),
          built.2, some opts⟩

/-! ## Submission/polling state machine
(src/client-base.js lines 707-739, src/index.js lines 590-621, and the
test-suite helper in test/index.test.js) -/

/-- A `getTransaction` response as the polling loop consumes it. -/
structure TxResponse where
  status : String
  hash : Option String
  envelopeXdr : Option String
  resultXdr : Option String
  resultMetaXdr : Option String
deriving DecidableEq

/-- The polling-loop guard:
`response.status === 'PENDING' || response.status === 'NOT_FOUND'`. -/
def isPollPending (response : TxResponse) : Bool :=
  response.status == "PENDING" || response.status == "NOT_FOUND"

/-- The library polling loop (src/client-base.js lines 722-726, src/index.js
lines 604-608): `let response = await this.getTransaction(hash);
while (status is PENDING or NOT_FOUND) { response = await this.getTransaction(hash); }`.
The loop body has no counter and no throw, so the loop is unbounded; `fuel`
bounds only how many further iterations the embedding observes, and `none`
means the loop is still running after consuming all the fuel.  `getTx k` is
the response of the k-th `getTransaction` call. -/
def pollLibAux (getTx : Nat → TxResponse) : Nat → Nat → Option TxResponse
  | 0, i =>
    let response := getTx i
    if isPollPending response then none else some response
  | fuel + 1, i =>
    let response := getTx i
    if isPollPending response then pollLibAux getTx fuel (i + 1) else some response

/-- The library polling loop started at the first `getTransaction` call. -/
def pollLib (getTx : Nat → TxResponse) (fuel : Nat) : Option TxResponse :=
  pollLibAux getTx fuel 0

/-- The test-suite polling loop (test/index.test.js, local `submitTransaction`):
`let response = await getTransaction(hash); let tries = 0;
while (status is PENDING or NOT_FOUND) { response = await getTransaction(hash);
if (++tries > 20) throw new Error('Transaction not found after 10 tries'); }`.
`rem` counts the remaining loop iterations before `tries` exceeds 20; the
response fetched on the final iteration is discarded by the throw, which the
source performs before re-checking the status. -/
def pollTestGo (getTx : Nat → TxResponse) : Nat → Nat → TxResponse → Except String TxResponse
  | 0, i, response =>
    if isPollPending response then
      let _discarded := getTx i
      Except.error "Transaction not found after 10 tries"
    else Except.ok response
  | rem + 1, i, response =>
    if isPollPending response then pollTestGo getTx rem (i + 1) (getTx i)
    else Except.ok response

/-- The test-suite polling loop started on the initial `getTransaction`
response, with the 20-retry budget of the source. -/
def pollTest (getTx : Nat → TxResponse) : Except String TxResponse :=
  pollTestGo getTx 20 1 (getTx 0)

/-- The shape of the classified submission error the source assembles. -/
structure SubmitError where
  message : String
  status : Option String
  hash : Option String
  errorResultXdr : Option String
  envelopeXdr : Option String
  resultXdr : Option String
  resultMetaXdr : Option String
deriving DecidableEq

/-- The Error object assembled in the `FAILED` branch of `submitTransaction`
(src/client-base.js lines 730-735): message, status, hash and the three raw
XDR payloads. -/
def failedSubmitError (response : TxResponse) : SubmitError :=
  { message := "Transaction submit failed, result: " ++ response.status
    status := some response.status
    hash := response.hash
    errorResultXdr := none
    envelopeXdr := response.envelopeXdr
    resultXdr := response.resultXdr
    resultMetaXdr := response.resultMetaXdr }

/-- The tail of `submitTransaction` after the polling loop ends
(src/client-base.js lines 728-738, src/index.js lines 610-620, and the
test-suite helper): `response.hash = hash` is assigned, and when
`response.status === 'FAILED'` the Error above is constructed — but no
`throw` statement follows it in the source, so control falls through to
`return response` in every case. -/
def submitClassify (hash : String) (response : TxResponse) : Except SubmitError TxResponse :=
  let response := { response with hash := some hash }
  if response.status == "FAILED" then
    let _error := failedSubmitError response
    Except.ok response
  else
    Except.ok response

/-- A polled terminal response with status `FAILED` and the three raw XDR
payloads populated. -/
def failedPollResponse : TxResponse :=
  ⟨"FAILED", none, some "envelope-xdr", some "result-xdr", some "result-meta-xdr"⟩

/-- A `getTransaction` oracle whose every response has status `PENDING`. -/
def constPendingGetTx : Nat → TxResponse :=
  fun _ => ⟨"PENDING", none, none, none, none⟩

/-! ## Value codec (src/oracle/index.js, src/dao/index.js,
src/xdr-values-helper.js) -/

/-- The network value format consumed and produced by the codec, at the
granularity the checked properties need. -/
inductive ScVal where
  | scvBool (b : Bool)
  | scvVoid
  | scvU32 (n : Nat)
  | scvU64 (n : Nat)
  | scvI128 (i : Int)
  | scvSymbol (s : String)
  | scvString (s : String)
  | scvBytes (bytes : List Nat)
  | scvAddress (a : String)
  | scvVec (elements : List ScVal)
  | scvMap (entries : List (ScVal × ScVal))

/-- src/oracle/index.js lines 62-66: `const byte = Math.floor(assetIndex / 8);
const bitmask = 1 << (assetIndex % 8); return [byte, bitmask]`. -/
def resolvePeriodUpdateMaskPosition (assetIndex : Nat) : Nat × Nat :=
  (assetIndex / 8, 2 ^ (assetIndex % 8))

/-- One iteration of the mask loop (src/oracle/index.js lines 71-82): read the
price, and when it is positive and the byte index fits the 32-byte buffer, OR
the bit into the mask byte. -/
def maskStep (updates : List Int) (mask : List Nat) (assetIndex : Nat) : List Nat :=
  let price := updates.getD assetIndex 0
  let isPositive := decide (0 < price)
  if isPositive then
    let pos := resolvePeriodUpdateMaskPosition assetIndex
    if 32 ≤ pos.1 then mask
    else mask.set pos.1 (mask.getD pos.1 0 ||| pos.2)
  else mask

/-- `generateUpdateRecordMask(updates)` (src/oracle/index.js lines 68-84):
`Buffer.alloc(32, 0)` then the loop over every asset index. -/
def generateUpdateRecordMask (updates : List Int) : List Nat :=
  (List.range updates.length).foldl (maskStep updates) (List.replicate 32 0)

/-- The invocation arguments `setPrices` emits (src/oracle/index.js lines
250-262): a map holding the 32-byte mask and the vector of the positive
prices (`update.prices.filter(u => u > 0)`) encoded as i128, followed by the
u64 timestamp. -/
def setPricesArgs (prices : List Int) (timestamp : Nat) : List ScVal :=
  [ScVal.scvMap
      [(ScVal.scvSymbol "mask", ScVal.scvBytes (generateUpdateRecordMask prices)),
       (ScVal.scvSymbol "prices",
         ScVal.scvVec ((prices.filter (fun u => decide (0 < u))).map ScVal.scvI128))],
    ScVal.scvU64 timestamp]

/-- `buildDepositParamsScVal(depositParams)` (src/dao/index.js lines 41-49):
the entries of the deposit-parameter mapping sorted ascending by numeric key
(`.sort((a, b) => Number(a[0]) - Number(b[0]))`, a stable ascending sort),
then mapped to `(scvU32 key, i128 amount)` map entries.  The mapping is
embedded as its entry list in insertion order; amounts, `nativeToScVal`-parsed
i128 strings in the source, are embedded as Int. -/
def buildDepositParamsScVal (depositParams : List (Nat × Int)) : ScVal :=
  ScVal.scvMap ((depositParams.mergeSort (fun a b => decide (a.1 ≤ b.1))).map
    (fun v => (ScVal.scvU32 v.1, ScVal.scvI128 v.2)))

/-- The entry list of an `scvMap` value. -/
def scvMapEntries : ScVal → List (ScVal × ScVal)
  | ScVal.scvMap entries => entries
  | _ => []

/-- The numeric key of a deposit-parameter map entry. -/
def entryKey : ScVal × ScVal → Nat
  | (ScVal.scvU32 k, _) => k
  | _ => 0

/-- The transaction-metadata envelope at the interface
`getSorobanResultValue` consumes: `result.value().sorobanMeta().returnValue()`
is collapsed into the one field the decoder reads. -/
structure TransactionMeta where
  returnValue : ScVal

/-- `getSorobanResultValue(result)` (src/xdr-values-helper.js lines 23-28):
when the return value's payload is the literal `false` (the footprint-mismatch
sentinel, `value.value() === false`) the function returns `undefined`,
embedded as `none`; otherwise it returns the value itself. -/
def getSorobanResultValue (result : TransactionMeta) : Option ScVal :=
  match result.returnValue with
  | ScVal.scvBool false => none
  | v => some v

/-- External collaborator `scValToBigInt`: widens an integral ScVal to BigInt
and throws on anything else. -/
def scValToBigInt : ScVal → Except String Int
  | ScVal.scvU32 n => Except.ok (n : Int)
  | ScVal.scvU64 n => Except.ok (n : Int)
  | ScVal.scvI128 i => Except.ok i
  | _ => Except.error "scValToBigInt: not an integral value"

/-- What a JavaScript caller of the price decoders can receive: `undefined`,
`null`, or a price record. -/
inductive ParsedPrice where
  | undef
  | null
  | price (price : Int) (timestamp : Int)
deriving DecidableEq

/-- `parseXdrPriceResult(xdrPriceResult)` (src/xdr-values-helper.js lines
51-59): `const xdrPrice = xdrPriceResult.value(); if (!xdrPrice) return null;`
then the two map entries are read as price and timestamp.  A falsy payload —
`undefined` (void), `false`, the number 0, the empty string — yields `null`;
a map payload is truthy and is indexed, throwing when an entry is missing;
every other payload cannot be indexed with `.val()` and throws. -/
def parseXdrPriceResult (xdrPriceResult : ScVal) : Except String ParsedPrice :=
  match xdrPriceResult with
  | ScVal.scvMap entries =>
    match entries with
    | e₀ :: e₁ :: _ => do
      let p ← scValToBigInt e₀.2
      let t ← scValToBigInt e₁.2
      Except.ok (ParsedPrice.price p t)
    | _ => Except.error "TypeError: cannot read val of undefined"
  | ScVal.scvVoid => Except.ok ParsedPrice.null
  | ScVal.scvBool false => Except.ok ParsedPrice.null
  | ScVal.scvU32 0 => Except.ok ParsedPrice.null
  | ScVal.scvU64 0 => Except.ok ParsedPrice.null
  | ScVal.scvString "" => Except.ok ParsedPrice.null
  | _ => Except.error "TypeError: payload is not indexable"

/-- `parsePriceResult(result)` (src/xdr-values-helper.js lines 90-95):
`const val = getSorobanResultValue(result); if (val === undefined) return null;
return parseXdrPriceResult(val)`. -/
def parsePriceResult (result : TransactionMeta) : Except String ParsedPrice :=
  match getSorobanResultValue result with
  | none => Except.ok ParsedPrice.null
  | some val => parseXdrPriceResult val

/-! ## Threshold signer (test/index.test.js) -/

/-- `getMajority(totalSignersCount)` (test/index.test.js lines 80-82,
548-550): `Math.floor(totalSignersCount / 2) + 1`. -/
def getMajority (totalSignersCount : Nat) : Nat := totalSignersCount / 2 + 1

/-- A detached signature over a transaction hash, tagged with the signer. -/
structure DecoratedSignature where
  signerHint : String
  signedPayload : String
deriving DecidableEq

/-- External capability `keypair.signDecorated(txHash)`: the cryptography is
opaque, so the signature is embedded as the signer/payload pair. -/
def signDecorated (keypair : String) (txHash : String) : DecoratedSignature :=
  ⟨keypair, txHash⟩

/-- `signTransaction(transaction, keypairs)` (test/index.test.js lines
213-223 and 623-633): `keypairs.sort(() => 0.5 - Math.random())` reorders the
caller's array IN PLACE with a random comparator — the resulting order is the
`shuffled` parameter of the embedding, constrained to a permutation by the
callers below — then the first `getMajority(keypairs.length)` entries are
sliced off and each signs the transaction hash.  The pair holds the
caller-visible final contents of the keypair array and the returned
signature list. -/
def signTransaction (keypairs : List String) (shuffled : List String) (txHash : String) :
    List String × List DecoratedSignature :=
  let selectedSigners := shuffled.take (getMajority keypairs.length)
  (shuffled, selectedSigners.map (fun signer => signDecorated signer txHash))

/-! ## Resource-fee normalizer: lemmas and claims -/

theorem log10floorAux_eq_log (fuel n : Nat) (h : n ≤ fuel) :
    log10floorAux fuel n = Nat.log 10 n := by
  induction fuel generalizing n with
  | zero =>
    interval_cases n
    simp [log10floorAux]
  | succ fuel ih =>
    rw [log10floorAux]
    by_cases hn : n < 10
    · rw [if_pos hn, Nat.log_of_lt hn]
    · have hlt : n / 10 < n := Nat.div_lt_self (by omega) (by norm_num)
      rw [if_neg hn, Nat.log_of_one_lt_of_le (by norm_num) (by omega), ih (n / 10) (by omega)]

theorem getFactorOfValue_eq_pow_log (n : Nat) : getFactorOfValue n = 10 ^ Nat.log 10 n := by
  rw [getFactorOfValue, log10floorAux_eq_log n n le_rfl]

theorem roundValue_gt (n : Nat) (h : 0 < n) : n < roundValue n := by
  rw [roundValue, if_neg (by omega)]
  have hfle : getFactorOfValue n ≤ n := by
    rw [getFactorOfValue_eq_pow_log]
    exact Nat.pow_log_le_self 10 (by omega)
  have hfpos : 0 < getFactorOfValue n := by
    rw [getFactorOfValue_eq_pow_log]; positivity
  have hkey : n * 2 % getFactorOfValue n + n * 2 / getFactorOfValue n * getFactorOfValue n
      = n * 2 := Nat.mod_add_div' (n * 2) (getFactorOfValue n)
  have hmod : n * 2 % getFactorOfValue n < getFactorOfValue n := Nat.mod_lt _ hfpos
  omega

/-- C1 counterexample — the resource-fee normalizer is not idempotent: at the
input 1234 (the spec's own example value) one application gives 2000 but a
second application gives 4000, so `roundValue(roundValue(1234))` differs from
`roundValue(1234)`. -/
theorem roundValue_not_idempotent :
    ¬ ∀ n : Nat, roundValue (roundValue n) = roundValue n :=
  fun h => absurd (h 1234) (by decide)

/-- C1 (amended) — `roundValue` is idempotent only at 0: `roundValue 0 = 0`,
while for every positive n each application strictly increases the value, so
`roundValue(roundValue(n)) > roundValue(n)` and idempotence fails on every
positive input. -/
theorem roundValue_idempotent_only_at_zero :
    roundValue (roundValue 0) = roundValue 0 ∧
    ∀ n : Nat, 0 < n → roundValue n < roundValue (roundValue n) :=
  ⟨rfl, fun n hn => roundValue_gt (roundValue n) (by have := roundValue_gt n hn; omega)⟩

/-- C1 witness: the amended claim evaluated at n = 1234. -/
theorem roundValue_idempotent_only_at_zero_witness :
    0 < 1234 ∧ roundValue 1234 < roundValue (roundValue 1234) :=
  ⟨by decide, roundValue_idempotent_only_at_zero.2 1234 (by decide)⟩

/-- C2 — the normalizer maps 0 to 0, and for every positive n it returns
`floor((n*2)/factor) * factor` with `factor = 10^floor(log10 n)`, a value that
is always at least n. -/
theorem roundValue_spec :
    roundValue 0 = 0 ∧
    ∀ n : Nat, 0 < n →
      roundValue n = n * 2 / 10 ^ Nat.log 10 n * 10 ^ Nat.log 10 n ∧ n ≤ roundValue n := by
  refine ⟨rfl, fun n hn => ⟨?_, le_of_lt (roundValue_gt n hn)⟩⟩
  rw [roundValue, if_neg (by omega), getFactorOfValue_eq_pow_log]

/-- C2 witness: the claim evaluated at n = 1234. -/
theorem roundValue_spec_witness :
    0 < 1234 ∧
    (roundValue 1234 = 1234 * 2 / 10 ^ Nat.log 10 1234 * 10 ^ Nat.log 10 1234 ∧
      1234 ≤ roundValue 1234) :=
  ⟨by decide, roundValue_spec.2 1234 (by decide)⟩

/-! ## Resource-fee floor: claim C3 -/

theorem computeResourceFee_eq (rawFee : Nat) :
    computeResourceFee rawFee =
      (if 10000000 ≤ roundValue rawFee then roundValue rawFee else 10000000) := by
  rw [computeResourceFee]
  split <;> split <;> omega

/-- C3 — for every numeric `minResourceFee` reported by simulation, the
resource fee `buildTransaction` writes into the assembled transaction is the
normalized raw fee when that is at least 10,000,000 minimal units and exactly
10,000,000 otherwise, so it is never below 10,000,000. -/
theorem buildTransaction_resourceFee_floor (network : String) (source : Account)
    (operation : Operation) (opts : TxOptions) (sim : SimResponse) (rawFee : Nat)
    (herr : sim.error = none) (hrestore : sim.restorePreamble = none)
    (hfee : sim.minResourceFee = some rawFee) :
    ∃ built : AssembledTx,
      (buildTransaction network source operation (some opts) sim).result =
        Except.ok (BuildResult.assembled built) ∧
      built.resourceFee =
        (if 10000000 ≤ roundValue rawFee then roundValue rawFee else 10000000) ∧
      10000000 ≤ built.resourceFee := by
  obtain ⟨e, rp, mrf, ins, rb, wb⟩ := sim
  simp only at herr hrestore hfee
  subst herr hrestore hfee
  refine ⟨_, rfl, computeResourceFee_eq rawFee, ?_⟩
  show 10000000 ≤ computeResourceFee rawFee
  rw [computeResourceFee]
  split <;> omega

/-- C3 witness: a simulation reporting a raw fee of 42 yields an assembled
transaction carrying the 10,000,000 floor. -/
theorem buildTransaction_resourceFee_floor_witness :
    ∃ built : AssembledTx,
      (buildTransaction "testnet" ⟨"GSOURCE", 7⟩ "set_price"
          (some ⟨100, none, none⟩) ⟨none, none, some 42, 0, 0, 0⟩).result =
        Except.ok (BuildResult.assembled built) ∧
      built.resourceFee =
        (if 10000000 ≤ roundValue 42 then roundValue 42 else 10000000) ∧
      10000000 ≤ built.resourceFee :=
  buildTransaction_resourceFee_floor "testnet" ⟨"GSOURCE", 7⟩ "set_price"
    ⟨100, none, none⟩ ⟨none, none, some 42, 0, 0, 0⟩ 42 rfl rfl rfl

/-! ## Submission classification: claim C4 -/

/-- C4 — evaluation of the code at the failing input: for a polled terminal
response with status FAILED carrying the three raw XDR payloads,
`submitTransaction` constructs the diagnostic Error but returns the response
normally (`Except.ok`) instead of throwing it, because the source builds the
Error object and then falls through to `return response` without a `throw`. -/
theorem submitTransaction_failed_returns_normally :
    failedPollResponse.status = "FAILED" ∧
    submitClassify "abcdef0123" failedPollResponse =
      Except.ok { failedPollResponse with hash := some "abcdef0123" } :=
  ⟨rfl, rfl⟩

/-! ## Builder frame effects: claim C6 -/

/-- C6 counterexample — the claim fails on the legacy `buildTransaction`
variant (src/rpc-helper.js lines 32-80): it hands the live source `Account`
to the SDK TransactionBuilder, whose build step increments that account
object, so after a call with a source at sequence 5 the caller's snapshot is
at sequence 6. -/
theorem buildTransactionLegacy_mutates_source :
    (buildTransactionLegacy "testnet" ⟨"GCALLER", 5⟩ "set_price"
        (some ⟨100, none, none⟩) ⟨none, none, some 1, 0, 0, 0⟩).sourceAfter ≠
      (⟨"GCALLER", 5⟩ : Account) := by
  decide

/-- C6 (amended) — the restore-capable `buildTransaction` (src/rpc-helper.js
lines 159-212), the variant that clones the options and builds from a fresh
`new Account(...)` copy, leaves both the caller's options object and the
caller's source Account unchanged in every branch, preserving the original
snapshot for the restore transaction; the legacy variant (lines 32-80)
instead passes the live Account to the builder and the caller's snapshot
comes back with its sequence number incremented. -/
theorem buildTransaction_preserves_caller_objects (network : String) (source : Account)
    (operation : Operation) (options : Option TxOptions) (sim : SimResponse) :
    (buildTransaction network source operation options sim).sourceAfter = source ∧
    (buildTransaction network source operation options sim).optionsAfter = options := by
  obtain ⟨e, rp, mrf, ins, rb, wb⟩ := sim
  cases options with
  | none => exact ⟨rfl, rfl⟩
  | some opts =>
    cases e with
    | some err => exact ⟨rfl, rfl⟩
    | none =>
      cases rp with
      | some preamble => exact ⟨rfl, rfl⟩
      | none =>
        cases mrf with
        | some rawFee => exact ⟨rfl, rfl⟩
        | none => exact ⟨rfl, rfl⟩

/-! ## Polling bounds: claim C5 -/

theorem pollLibAux_constPending (fuel i : Nat) :
    pollLibAux constPendingGetTx fuel i = none := by
  induction fuel generalizing i with
  | zero => rfl
  | succ fuel ih => simpa [pollLibAux, constPendingGetTx, isPollPending] using ih (i + 1)

/-- C5 counterexample — the library polling loop of `submitTransaction`
(src/client-base.js lines 722-726, src/index.js lines 604-608) is not bounded:
against a node that keeps answering PENDING, no retry bound makes the loop
resolve, and no timeout error is ever thrown — the loop simply keeps polling. -/
theorem pollLib_retries_unbounded :
    ¬ ∃ bound : Nat, ∀ fuel : Nat, bound ≤ fuel →
      (pollLib constPendingGetTx fuel).isSome = true := by
  rintro ⟨bound, h⟩
  have hb := h bound le_rfl
  rw [pollLib, pollLibAux_constPending] at hb
  simp at hb

theorem pollTestGo_error_iff (getTx : Nat → TxResponse) (rem : Nat) :
    ∀ (i : Nat) (r : TxResponse),
      pollTestGo getTx rem i r = Except.error "Transaction not found after 10 tries" ↔
        (isPollPending r = true ∧ ∀ k, i ≤ k → k < i + rem → isPollPending (getTx k) = true) := by
  induction rem with
  | zero =>
    intro i r
    rw [pollTestGo]
    by_cases hp : isPollPending r = true
    · rw [if_pos hp]
      exact ⟨fun _ => ⟨hp, fun k h1 h2 => absurd h2 (by omega)⟩, fun _ => rfl⟩
    · rw [if_neg hp]
      exact ⟨fun h => Except.noConfusion h, fun h => absurd h.1 hp⟩
  | succ rem ih =>
    intro i r
    rw [pollTestGo]
    by_cases hp : isPollPending r = true
    · rw [if_pos hp, ih (i + 1) (getTx i)]
      constructor
      · rintro ⟨hg, hall⟩
        refine ⟨hp, fun k h1 h2 => ?_⟩
        rcases Nat.eq_or_lt_of_le h1 with rfl | hgt
        · exact hg
        · exact hall k (by omega) (by omega)
      · rintro ⟨-, hall⟩
        exact ⟨hall i le_rfl (by omega), fun k h1 h2 => hall k (by omega) (by omega)⟩
    · rw [if_neg hp]
      exact ⟨fun h => Except.noConfusion h, fun h => absurd h.1 hp⟩

theorem pollTestGo_ok_not_pending (getTx : Nat → TxResponse) (rem : Nat) :
    ∀ (i : Nat) (r final : TxResponse),
      pollTestGo getTx rem i r = Except.ok final → isPollPending final = false := by
  induction rem with
  | zero =>
    intro i r final
    rw [pollTestGo]
    by_cases hp : isPollPending r = true
    · rw [if_pos hp]
      intro h
      cases h
    · rw [if_neg hp]
      intro h
      injection h with h
      subst h
      simpa using hp
  | succ rem ih =>
    intro i r final
    rw [pollTestGo]
    by_cases hp : isPollPending r = true
    · rw [if_pos hp]
      exact ih (i + 1) (getTx i) final
    · rw [if_neg hp]
      intro h
      injection h with h
      subst h
      simpa using hp

/-- C5 (amended) — only the test-suite submitTransaction helper
(test/index.test.js) bounds its polling: it checks at most 21 statuses — the
initial response and 20 polls — and throws the timeout error
"Transaction not found after 10 tries" exactly when all of them are PENDING
or NOT_FOUND; a normal return always carries a terminal (non-pending) status;
and the timeout error differs from the message of the FAILED-status error the
source assembles (which, moreover, is never thrown — see the FAILED-branch
claim).  The library submitTransaction polls unboundedly with no timeout
classification at all. -/
theorem pollTest_bounded (getTx : Nat → TxResponse) :
    (pollTest getTx = Except.error "Transaction not found after 10 tries" ↔
      ∀ k, k ≤ 20 → isPollPending (getTx k) = true) ∧
    (∀ final : TxResponse, pollTest getTx = Except.ok final → isPollPending final = false) ∧
    (failedSubmitError ⟨"FAILED", none, none, none, none⟩).message ≠
      "Transaction not found after 10 tries" := by
  refine ⟨?_, ?_, by decide⟩
  · rw [pollTest, pollTestGo_error_iff]
    constructor
    · rintro ⟨h0, hall⟩ k hk
      rcases Nat.eq_zero_or_pos k with rfl | hk0
      · exact h0
      · exact hall k (by omega) (by omega)
    · intro hall
      exact ⟨hall 0 (by omega), fun k h1 h2 => hall k (by omega)⟩
  · intro final h
    exact pollTestGo_ok_not_pending getTx 20 1 (getTx 0) final h

/-- C5 witness: against the always-PENDING node the test-suite loop throws
exactly the timeout error. -/
theorem pollTest_bounded_witness :
    pollTest constPendingGetTx = Except.error "Transaction not found after 10 tries" :=
  (pollTest_bounded constPendingGetTx).1.mpr (fun _ _ => rfl)

/-! ## Threshold signer: claim C10 -/

/-- C10 — the threshold signer mutates the caller's keypair array in place:
after the call the array holds the shuffled order (an arbitrary permutation
of the original), while the returned list holds exactly
`getMajority N = floor(N/2) + 1` detached signatures, each over the
transaction hash and each produced by a keypair from the caller's original
list. -/
theorem signTransaction_spec (keypairs shuffled : List String) (txHash : String)
    (hperm : shuffled.Perm keypairs) (hlen : 1 ≤ keypairs.length) :
    (signTransaction keypairs shuffled txHash).1 = shuffled ∧
    (signTransaction keypairs shuffled txHash).1.Perm keypairs ∧
    (signTransaction keypairs shuffled txHash).2.length = getMajority keypairs.length ∧
    getMajority keypairs.length = keypairs.length / 2 + 1 ∧
    ∀ sig ∈ (signTransaction keypairs shuffled txHash).2,
      sig.signedPayload = txHash ∧ sig.signerHint ∈ keypairs := by
  refine ⟨rfl, hperm, ?_, rfl, ?_⟩
  · show (List.map _ (shuffled.take (getMajority keypairs.length))).length = _
    rw [List.length_map, List.length_take, hperm.length_eq]
    rw [getMajority]
    omega
  · intro sig hsig
    rw [show (signTransaction keypairs shuffled txHash).2 =
        (shuffled.take (getMajority keypairs.length)).map
          (fun signer => signDecorated signer txHash) from rfl] at hsig
    rw [List.mem_map] at hsig
    obtain ⟨signer, hmem, heq⟩ := hsig
    refine ⟨by rw [← heq]; rfl, ?_⟩
    rw [← heq]
    exact hperm.mem_iff.mp (List.take_subset _ _ hmem)

/-- C10 witness: three keypairs shuffled to a concrete permutation produce
exactly two signatures over the hash, and the caller's array ends in the
shuffled order. -/
theorem signTransaction_spec_witness :
    (signTransaction ["kpA", "kpB", "kpC"] ["kpC", "kpA", "kpB"] "txhash").1 =
      ["kpC", "kpA", "kpB"] ∧
    (signTransaction ["kpA", "kpB", "kpC"] ["kpC", "kpA", "kpB"] "txhash").1.Perm
      ["kpA", "kpB", "kpC"] ∧
    (signTransaction ["kpA", "kpB", "kpC"] ["kpC", "kpA", "kpB"] "txhash").2.length =
      getMajority (["kpA", "kpB", "kpC"] : List String).length ∧
    getMajority (["kpA", "kpB", "kpC"] : List String).length =
      (["kpA", "kpB", "kpC"] : List String).length / 2 + 1 ∧
    ∀ sig ∈ (signTransaction ["kpA", "kpB", "kpC"] ["kpC", "kpA", "kpB"] "txhash").2,
      sig.signedPayload = "txhash" ∧ sig.signerHint ∈ ["kpA", "kpB", "kpC"] :=
  signTransaction_spec ["kpA", "kpB", "kpC"] ["kpC", "kpA", "kpB"] "txhash"
    (by decide) (by decide)

/-! ## Result decoding: claim C9 -/

/-- C9 — the footprint-mismatch sentinel is decoded into the explicit
undefined/no-result marker (`none`), and into it exactly for the sentinel
payload, so callers can tell it apart from a legitimate null: the void return
value of a price query at a timestamp with no recorded entry passes through
`getSorobanResultValue` intact and `parsePriceResult` turns it into an
explicit null — not the undefined marker and not a thrown error. -/
theorem parsePriceResult_null_distinct_from_suppressed :
    (∀ rv : ScVal, getSorobanResultValue ⟨rv⟩ = none ↔ rv = ScVal.scvBool false) ∧
    getSorobanResultValue ⟨ScVal.scvVoid⟩ = some ScVal.scvVoid ∧
    parsePriceResult ⟨ScVal.scvVoid⟩ = Except.ok ParsedPrice.null ∧
    ParsedPrice.null ≠ ParsedPrice.undef := by
  refine ⟨fun rv => ?_, rfl, rfl, by decide⟩
  cases rv with
  | scvBool b => cases b <;> simp [getSorobanResultValue]
  | scvVoid => simp [getSorobanResultValue]
  | scvU32 n => simp [getSorobanResultValue]
  | scvU64 n => simp [getSorobanResultValue]
  | scvI128 i => simp [getSorobanResultValue]
  | scvSymbol s => simp [getSorobanResultValue]
  | scvString s => simp [getSorobanResultValue]
  | scvBytes bytes => simp [getSorobanResultValue]
  | scvAddress a => simp [getSorobanResultValue]
  | scvVec elements => simp [getSorobanResultValue]
  | scvMap entries => simp [getSorobanResultValue]

/-- C9 witness: the sentinel payload itself is decoded to the undefined
marker. -/
theorem parsePriceResult_null_distinct_from_suppressed_witness :
    getSorobanResultValue ⟨ScVal.scvBool false⟩ = none :=
  (parsePriceResult_null_distinct_from_suppressed.1 (ScVal.scvBool false)).mpr rfl

/-! ## Deposit-parameter encoding: claim C8 -/

theorem mergeSortByKey_strictSorted (l : List (Nat × Int))
    (hnodup : (l.map Prod.fst).Nodup) :
    List.Pairwise (fun a b : Nat × Int => a.1 < b.1)
      (l.mergeSort (fun a b => decide (a.1 ≤ b.1))) := by
  have hsorted := @List.sorted_mergeSort (Nat × Int)
    (fun a b => decide (a.1 ≤ b.1))
    (fun a b c hab hbc => by
      simp only [decide_eq_true_eq] at hab hbc ⊢
      omega)
    (fun a b => by
      simp only [Bool.or_eq_true, decide_eq_true_eq]
      omega)
    l
  have hperm : (l.mergeSort (fun a b => decide (a.1 ≤ b.1))).Perm l :=
    List.mergeSort_perm l _
  have hnodup2 : ((l.mergeSort (fun a b => decide (a.1 ≤ b.1))).map Prod.fst).Nodup :=
    (hperm.map Prod.fst).symm.nodup hnodup
  have hne : List.Pairwise (fun a b : Nat × Int => a.1 ≠ b.1)
      (l.mergeSort (fun a b => decide (a.1 ≤ b.1))) :=
    List.pairwise_map.mp hnodup2
  have hle : List.Pairwise (fun a b : Nat × Int => a.1 ≤ b.1)
      (l.mergeSort (fun a b => decide (a.1 ≤ b.1))) :=
    hsorted.imp (fun h => by simpa using h)
  exact (hle.and hne).imp (fun h => lt_of_le_of_ne h.1 h.2)

/-- C8 — two deposit-parameter mappings holding the same key-value pairs in
different insertion orders encode to the identical ScVal map, and the emitted
entries are in strictly ascending numeric key order. -/
theorem buildDepositParamsScVal_deterministic (l₁ l₂ : List (Nat × Int))
    (hperm : l₁.Perm l₂) (hnodup : (l₁.map Prod.fst).Nodup) :
    buildDepositParamsScVal l₁ = buildDepositParamsScVal l₂ ∧
    List.Pairwise (fun e₁ e₂ => entryKey e₁ < entryKey e₂)
      (scvMapEntries (buildDepositParamsScVal l₁)) := by
  have hnodup₂ : (l₂.map Prod.fst).Nodup := (hperm.map Prod.fst).nodup hnodup
  have hs₁ := mergeSortByKey_strictSorted l₁ hnodup
  have hs₂ := mergeSortByKey_strictSorted l₂ hnodup₂
  have hp : (l₁.mergeSort (fun a b => decide (a.1 ≤ b.1))).Perm
      (l₂.mergeSort (fun a b => decide (a.1 ≤ b.1))) :=
    ((List.mergeSort_perm l₁ _).trans hperm).trans (List.mergeSort_perm l₂ _).symm
  haveI : IsAntisymm (Nat × Int) (fun a b => a.1 < b.1) :=
    ⟨fun a b hab hba => absurd hba (by omega)⟩
  have heq : l₁.mergeSort (fun a b => decide (a.1 ≤ b.1)) =
      l₂.mergeSort (fun a b => decide (a.1 ≤ b.1)) :=
    List.eq_of_perm_of_sorted hp hs₁ hs₂
  refine ⟨?_, ?_⟩
  · rw [buildDepositParamsScVal, buildDepositParamsScVal, heq]
  · show List.Pairwise _ (scvMapEntries (ScVal.scvMap _))
    rw [scvMapEntries, List.pairwise_map]
    exact hs₁.imp (fun h => by simpa [entryKey] using h)

/-- C8 witness: the same three tier/amount pairs inserted in two different
orders encode identically, with entries ascending by key. -/
theorem buildDepositParamsScVal_deterministic_witness :
    buildDepositParamsScVal [(2, 500), (0, 700), (1, 300)] =
      buildDepositParamsScVal [(0, 700), (1, 300), (2, 500)] ∧
    List.Pairwise (fun e₁ e₂ => entryKey e₁ < entryKey e₂)
      (scvMapEntries (buildDepositParamsScVal [(2, 500), (0, 700), (1, 300)])) :=
  buildDepositParamsScVal_deterministic [(2, 500), (0, 700), (1, 300)]
    [(0, 700), (1, 300), (2, 500)] (by decide) (by decide)

/-! ## Sparse price-update encoding: claim C7 -/

theorem maskStep_eq (updates : List Int) (mask : List Nat) (assetIndex : Nat) :
    maskStep updates mask assetIndex =
      if 0 < updates.getD assetIndex 0 ∧ assetIndex / 8 < 32 then
        mask.set (assetIndex / 8) (mask.getD (assetIndex / 8) 0 ||| 2 ^ (assetIndex % 8))
      else mask := by
  rw [maskStep, resolvePeriodUpdateMaskPosition]
  by_cases h1 : 0 < updates.getD assetIndex 0
  · by_cases h2 : 32 ≤ assetIndex / 8
    · rw [if_pos (decide_eq_true h1), if_pos h2, if_neg (by omega)]
    · rw [if_pos (decide_eq_true h1), if_neg h2, if_pos ⟨h1, by omega⟩]
  · rw [if_neg (by simpa using h1), if_neg (by tauto)]

theorem maskStep_length (updates : List Int) (mask : List Nat) (assetIndex : Nat) :
    (maskStep updates mask assetIndex).length = mask.length := by
  rw [maskStep_eq]
  split
  · exact List.length_set mask _ _
  · rfl

theorem foldl_maskStep_length (updates : List Int) (idxs : List Nat) (init : List Nat) :
    (idxs.foldl (maskStep updates) init).length = init.length := by
  induction idxs generalizing init with
  | nil => rfl
  | cons a as ih => rw [List.foldl_cons, ih, maskStep_length]

theorem generateUpdateRecordMask_length (updates : List Int) :
    (generateUpdateRecordMask updates).length = 32 := by
  rw [generateUpdateRecordMask, foldl_maskStep_length, List.length_replicate]

theorem getD_replicate_zero (n j : Nat) : (List.replicate n (0 : Nat)).getD j 0 = 0 := by
  rw [List.getD_eq_getElem?_getD, List.getElem?_replicate]
  split <;> rfl

theorem getD_set_self (l : List Nat) (j v : Nat) (h : j < l.length) :
    (l.set j v).getD j 0 = v := by
  rw [List.getD_eq_getElem?_getD, List.getElem?_set_self h]
  rfl

theorem getD_set_ne (l : List Nat) (i j v : Nat) (h : j ≠ i) :
    (l.set j v).getD i 0 = l.getD i 0 := by
  rw [List.getD_eq_getElem?_getD, List.getElem?_set_ne h, ← List.getD_eq_getElem?_getD]

theorem maskFold_testBit (updates : List Int) (n i : Nat) (hi : i < 256) :
    (((List.range n).foldl (maskStep updates) (List.replicate 32 0)).getD (i / 8) 0).testBit
        (i % 8) = true ↔
      (i < n ∧ 0 < updates.getD i 0) := by
  induction n with
  | zero =>
    rw [List.range_zero, List.foldl_nil, getD_replicate_zero, Nat.zero_testBit]
    simp
  | succ n ih =>
    rw [List.range_succ, List.foldl_append, List.foldl_cons, List.foldl_nil, maskStep_eq]
    have hMlen : ((List.range n).foldl (maskStep updates) (List.replicate 32 0)).length = 32 := by
      rw [foldl_maskStep_length, List.length_replicate]
    by_cases hc : 0 < updates.getD n 0 ∧ n / 8 < 32
    · rw [if_pos hc]
      by_cases hb : i / 8 = n / 8
      · rw [← hb, getD_set_self _ _ _ (by rw [hMlen]; omega)]
        rw [Nat.testBit_or, Bool.or_eq_true, ih, Nat.testBit_two_pow, decide_eq_true_eq]
        constructor
        · rintro (⟨h1, h2⟩ | hbit)
          · exact ⟨by omega, h2⟩
          · have hieq : i = n := by omega
            exact ⟨by omega, by rw [hieq]; exact hc.1⟩
        · rintro ⟨h1, h2⟩
          rcases Nat.lt_succ_iff_lt_or_eq.mp h1 with h | rfl
          · exact Or.inl ⟨h, h2⟩
          · exact Or.inr (by omega)
      · rw [getD_set_ne _ _ _ _ (fun h => hb h.symm), ih]
        constructor
        · rintro ⟨h1, h2⟩
          exact ⟨by omega, h2⟩
        · rintro ⟨h1, h2⟩
          refine ⟨?_, h2⟩
          have hine : i ≠ n := fun h => hb (by rw [h])
          omega
    · rw [if_neg hc, ih]
      constructor
      · rintro ⟨h1, h2⟩
        exact ⟨by omega, h2⟩
      · rintro ⟨h1, h2⟩
        refine ⟨?_, h2⟩
        have hine : i ≠ n := by
          intro h
          subst h
          exact hc ⟨h2, by omega⟩
        omega

/-- C7 — the sparse price-update encoding emits a 32-byte mask in which bit
`i % 8` of byte `i / 8` is set exactly when the i-th price is positive
(indices at and above 256 never reach the mask), and the emitted value vector
holds exactly the positive prices in their original order, alongside the u64
timestamp. -/
theorem setPrices_sparse_encoding (prices : List Int) (timestamp : Nat) :
    (generateUpdateRecordMask prices).length = 32 ∧
    (∀ i : Nat, i < 256 →
      (((generateUpdateRecordMask prices).getD (i / 8) 0).testBit (i % 8) = true ↔
        (i < prices.length ∧ 0 < prices.getD i 0))) ∧
    setPricesArgs prices timestamp =
      [ScVal.scvMap
          [(ScVal.scvSymbol "mask", ScVal.scvBytes (generateUpdateRecordMask prices)),
           (ScVal.scvSymbol "prices",
             ScVal.scvVec ((prices.filter (fun u => decide (0 < u))).map ScVal.scvI128))],
        ScVal.scvU64 timestamp] :=
  ⟨generateUpdateRecordMask_length prices,
   fun i hi => maskFold_testBit prices prices.length i hi,
   rfl⟩

/-- C7 witness: for the prices [100, -1, 50] the mask has bits 0 and 2 of its
first byte set and bit 1 clear, and the value vector is exactly [100, 50]. -/
theorem setPrices_sparse_encoding_witness :
    (((generateUpdateRecordMask [100, -1, 50]).getD (0 / 8) 0).testBit (0 % 8) = true ↔
      (0 < ([100, -1, 50] : List Int).length ∧ 0 < ([100, -1, 50] : List Int).getD 0 0)) ∧
    ((generateUpdateRecordMask [100, -1, 50]).getD 0 0).testBit 0 = true ∧
    ((generateUpdateRecordMask [100, -1, 50]).getD 0 0).testBit 1 = false ∧
    ((generateUpdateRecordMask [100, -1, 50]).getD 0 0).testBit 2 = true ∧
    ([100, -1, 50] : List Int).filter (fun u => decide (0 < u)) = [100, 50] :=
  ⟨(setPrices_sparse_encoding [100, -1, 50] 0).2.1 0 (by decide),
   by decide, by decide, by decide, by decide⟩

end OracleClient
